import Mathlib

set_option maxHeartbeats 1000000
set_option maxRecDepth 4000

/-!
Verification development for the svimmer structural-variant merger
(src/sv.py and src/utilities.py).  Python strings are modelled as lists
of characters, Python dictionaries as association lists whose lookup
returns the most recent binding, Python integers as Int, and raised
exceptions as Option/none.  Every definition follows the source line by
line; the line numbers of the mirrored code are given in doc comments.
-/

/-- Python strings are modelled as lists of characters. -/
abbrev Str := List Char

/-- Python str.split(sep) for a one-character separator: splits on every
occurrence, keeping empty pieces, so the result is always non-empty. -/
def splitOnChar (c : Char) : Str → List Str
  | [] => [[]]
  | x :: xs =>
    match splitOnChar c xs with
    | [] => [[]]
    | h :: t => if x = c then [] :: h :: t else (x :: h) :: t

/-- Fuel-driven worker for pyReplace; the fuel is the length of the
scanned string, which bounds the number of steps. -/
def pyReplaceAux (pat repl : Str) : Nat → Str → Str
  | 0, s => s
  | _ + 1, [] => []
  | fuel + 1, x :: xs =>
    if pat ≠ [] ∧ pat.isPrefixOf (x :: xs) then
      repl ++ pyReplaceAux pat repl fuel ((x :: xs).drop pat.length)
    else
      x :: pyReplaceAux pat repl fuel xs

/-- Python str.replace: replaces the non-overlapping occurrences of pat,
scanning left to right (the program only calls it with non-empty pat). -/
def pyReplace (s pat repl : Str) : Str := pyReplaceAux pat repl s.length s

/-- Numeric value of a decimal digit character. -/
def digitVal (c : Char) : Option Nat :=
  if 48 ≤ c.toNat ∧ c.toNat ≤ 57 then some (c.toNat - 48) else none

/-- Accumulating decimal reader; none on a non-digit character. -/
def digitsToNatCore : Str → Nat → Option Nat
  | [], acc => some acc
  | c :: cs, acc =>
    match digitVal c with
    | none => none
    | some d => digitsToNatCore cs (acc * 10 + d)

/-- Reads a non-empty all-digit string as a natural number. -/
def digitsToNat : Str → Option Nat
  | [] => none
  | c :: cs => digitsToNatCore (c :: cs) 0

/-- Python int(str) on the numeral shapes this program feeds it: an
optional sign followed by decimal digits; none models the ValueError
raised on anything else. -/
def pyInt : Str → Option Int
  | '-' :: rest => (digitsToNat rest).map (fun n => -(n : Int))
  | '+' :: rest => (digitsToNat rest).map (fun n => (n : Int))
  | s => (digitsToNat s).map (fun n => (n : Int))

/-- Fuel-driven decimal printer for naturals (most significant digit
first); fuel n + 1 suffices for input n. -/
def natToStrAux : Nat → Nat → Str → Str
  | 0, _, acc => acc
  | fuel + 1, n, acc =>
    if n < 10 then Char.ofNat (48 + n) :: acc
    else natToStrAux fuel (n / 10) (Char.ofNat (48 + n % 10) :: acc)

/-- Decimal rendering of a natural number. -/
def natToStr (n : Nat) : Str := natToStrAux (n + 1) n []

/-- Python "%d" formatting of an integer. -/
def intToStr : Int → Str
  | Int.ofNat n => natToStr n
  | Int.negSucc m => '-' :: natToStr (m + 1)

/-- Python dictionaries with string keys and values, as association
lists; the most recent binding is kept at the head. -/
abbrev Dict := List (Str × Str)

/-- Dictionary lookup: the most recent binding of the key wins, which is
exactly the overwrite semantics of Python dict assignment. -/
def dget : Dict → Str → Option Str
  | [], _ => none
  | (k, v) :: d, q => if k = q then some v else dget d q

/-- Python dict assignment d[k] = v. -/
def dset (d : Dict) (k v : Str) : Dict := (k, v) :: d

/-- Processes one semicolon-delimited token of an annotation string,
mirroring the loop body of make_info_dictionary (sv.py lines 12-17):
a token without an equals sign maps to the empty value; a token with
exactly one equals sign maps key to value; a token with two or more
equals signs makes key, val = key_val.split of the token raise a
ValueError in Python, modelled as none. -/
def addInfoToken (d : Dict) (t : Str) : Option Dict :=
  match splitOnChar '=' t with
  | [k] => some (dset d k [])
  | [k, v] => some (dset d k v)
  | _ => none

/-- make_info_dictionary (sv.py lines 8-19): splits the annotation
string on semicolons and folds the tokens into a dictionary. -/
def make_info_dictionary (info : Str) : Option Dict :=
  (splitOnChar ';' info).foldlM addInfoToken []

/-- The closed type list SV_TYPES (sv.py line 6). -/
def SV_TYPES : List Str :=
  [("UNK").data, ("BND").data, ("DEL").data, ("INS").data, ("INV").data, ("NOT_SV").data]

/-- Construction-time configuration of SV.__init__ (sv.py lines 26-32). -/
structure Cfg where
  check_type : Bool
  join_mode : Bool
  output_ids : Bool
  ignore_bnd : Bool
  ignore_inv : Bool
deriving DecidableEq

/-- The first eight tab-separated columns of a variant record, that is
spl_line of sv.py line 37 (shape validation is the reader's job). -/
structure VcfFields where
  chrom : Str
  pos : Str
  vid : Str
  ref : Str
  alt : Str
  qual : Str
  filt : Str
  info : Str
deriving DecidableEq

/-- State of a successfully constructed SV candidate: the attributes the
constructor stores on self (sv.py lines 33-160). -/
structure SVState where
  is_outputting_ids : Bool
  join_mode : Bool
  chromosome : Str
  begin_ : Int
  end_ : Int
  type : Nat
  min_begin : Int
  max_begin : Int
  begins : List Int
  ends : List Int
  infos : List Str
  refs : List Str
  alts : List Str
  unique_begins_and_ends : List (Int × Int)
  old_num_merged_svs : Int
  ids : List Str
deriving DecidableEq

/-- Outcome of construction: err models a raised exception, notSV the
soft rejection is_sv = False, ok a usable candidate. -/
inductive InitResult where
  | err : InitResult
  | notSV : InitResult
  | ok : SVState → InitResult
deriving DecidableEq

/-- Outcome of the type-resolution block. -/
inductive TypeRes where
  | rej : TypeRes
  | ok : Str → Str → Dict → TypeRes
deriving DecidableEq

/-- Type resolution (sv.py lines 52-106).  With no SVTYPE key the type is
inferred from the lengths of the ref and alt column strings (lines
52-90); note the code compares len(ref) with len(alt), the length of the
whole alternate-allele column, not the length of the single
non-placeholder allele alt_spl of line 57.  With an SVTYPE key the
exclusion filters run and aliases are folded (lines 91-105).  Returns
the possibly re-written alt column, info string and dictionary. -/
def resolveType (ref alt spl7 : Str) (d : Dict) (ignore_bnd ignore_inv : Bool) : TypeRes :=
  match dget d (("SVTYPE").data) with
  | none =>
    let alt_spl := (splitOnChar ',' alt).filter (fun x => x ≠ ("*").data)
    if alt_spl.length = 1 then
      let step : Option (Str × Str × Dict) :=
        if ref.length ≥ alt.length + 50 then
          let s7 := if spl7.length > 0 then spl7 ++ (";").data else spl7
          let s7 := s7 ++ ("SVTYPE=DEL;SVLEN=").data ++ intToStr ((alt.length : Int) - (ref.length : Int))
          let d := dset d (("SVTYPE").data) (("DEL").data)
          let d := dset d (("SVSIZE").data) (intToStr ((ref.length : Int) - (alt.length : Int)))
          let d := dset d (("SVLEN").data) (intToStr ((alt.length : Int) - (ref.length : Int)))
          some (alt_spl.headD [], s7, d)
        else if alt.length ≥ ref.length + 50 then
          let s7 := if spl7.length > 0 then spl7 ++ (";").data else spl7
          let s7 := s7 ++ ("SVTYPE=INS;SVLEN=").data ++ intToStr ((alt.length : Int) - (ref.length : Int))
          let d := dset d (("SVTYPE").data) (("INS").data)
          let d := dset d (("SVSIZE").data) (intToStr ((alt.length : Int) - (ref.length : Int)))
          let d := dset d (("SVLEN").data) (intToStr ((alt.length : Int) - (ref.length : Int)))
          some (alt_spl.headD [], s7, d)
        else none
      match step with
      | none => TypeRes.rej
      | some (alt4, s7, d1) =>
        if (dget d1 (("SVTYPE").data)).isNone then TypeRes.rej
        else TypeRes.ok alt4 s7 d1
    else TypeRes.rej
  | some t =>
    if (ignore_bnd ∧ (t = ("BND").data ∨ t = ("TRA").data)) ∨ (ignore_inv ∧ t = ("INV").data) then
      TypeRes.rej
    else
      let d1 :=
        if t = ("DEL_ALU").data ∨ t = ("DEL_LINE1").data then
          dset d (("SVTYPE").data) (("DEL").data)
        else if t = ("ALU").data ∨ t = ("LINE1").data ∨ t = ("SVA").data ∨ t = ("DUP").data ∨
                t = ("CNV").data ∨ t = ("INVDUP").data ∨ t = ("INV").data then
          dset d (("SVTYPE").data) (("INS").data)
        else if t = ("TRA").data then
          dset d (("SVTYPE").data) (("BND").data)
        else d
      TypeRes.ok alt spl7 d1

/-- Removal of old values (sv.py lines 109-118): when join_mode is off
and NUM_MERGED_SVS is present, its integer value becomes
old_num_merged_svs (none on a parse failure) and the literal substring
NUM_MERGED_SVS=value; is removed from the info string; when STDDEV_POS
is present, STDDEV_POS=value; is removed likewise.  The dictionary
itself is not changed.  Returns the old count (default -1) and the
re-written info string. -/
def stripOld (join_mode : Bool) (spl7 : Str) (d : Dict) : Option (Int × Str) :=
  let step1 : Option (Int × Str) :=
    if join_mode = false then
      match dget d (("NUM_MERGED_SVS").data) with
      | some v =>
        (pyInt v).map (fun o =>
          (o, pyReplace spl7 (("NUM_MERGED_SVS=").data ++ v ++ (";").data) []))
      | none => some (-1, spl7)
    else some (-1, spl7)
  step1.map (fun p =>
    match dget d (("STDDEV_POS").data) with
    | some v => (p.1, pyReplace p.2 (("STDDEV_POS=").data ++ v ++ (";").data) [])
    | none => p)

/-- Outcome of the size-based qualification block. -/
inductive SizeRes where
  | err : SizeRes
  | rej : SizeRes
  | acc : Int → SizeRes
deriving DecidableEq

/-- Size-based qualification (sv.py lines 120-140).  For a DEL the end
position comes from END, else begin + abs of SVSIZE, else begin + abs of
SVLEN, else stays begin, and the record is rejected when end - 50 <
begin.  For an INS the length comes from SVLEN (defaulting to -1), and
when that value is -1 it comes from SVSIZE (defaulting to -1); the
record is rejected when the length is below 50 and none of SVINSSEQ,
LEFT_SVINSSEQ, RIGHT_SVINSSEQ is present.  Any other type passes with
the end position unchanged at begin. -/
def sizeQualify (b : Int) (d : Dict) : SizeRes :=
  match dget d (("SVTYPE").data) with
  | some t =>
    if t = ("DEL").data then
      let endOpt : Option Int :=
        match dget d (("END").data) with
        | some v => pyInt v
        | none =>
          match dget d (("SVSIZE").data) with
          | some v => (pyInt v).map (fun n => b + (n.natAbs : Int))
          | none =>
            match dget d (("SVLEN").data) with
            | some v => (pyInt v).map (fun n => b + (n.natAbs : Int))
            | none => some b
      match endOpt with
      | none => SizeRes.err
      | some e => if e - 50 < b then SizeRes.rej else SizeRes.acc e
    else if t = ("INS").data then
      let len1 : Option Int :=
        match dget d (("SVLEN").data) with
        | some v => pyInt v
        | none => some (-1)
      match len1 with
      | none => SizeRes.err
      | some l1 =>
        let len2 : Option Int :=
          if l1 = -1 then
            match dget d (("SVSIZE").data) with
            | some v => pyInt v
            | none => some (-1)
          else some l1
        match len2 with
        | none => SizeRes.err
        | some svlen =>
          if svlen < 50 ∧ (dget d (("SVINSSEQ").data)).isNone ∧
              (dget d (("LEFT_SVINSSEQ").data)).isNone ∧
              (dget d (("RIGHT_SVINSSEQ").data)).isNone then
            SizeRes.rej
          else SizeRes.acc b
    else SizeRes.acc b
  | none => SizeRes.acc b

/-- Type index assignment (sv.py lines 142-149): with check_type on, the
SVTYPE value is looked up in SV_TYPES (none models the KeyError or the
assert False on an unknown type); otherwise the type is 0. -/
def typeIndex (check_type : Bool) (d : Dict) : Option Nat :=
  if check_type then
    match dget d (("SVTYPE").data) with
    | none => none
    | some t => SV_TYPES.indexOf? t
  else some 0

/-- The dot placeholder normalization of sv.py lines 47-48. -/
def normInfo (info : Str) : Str := if info = (".").data then [] else info

/-- SV.__init__ (sv.py lines 26-160) as the composition of its blocks:
position parse, info normalization and parse, type resolution, old-value
stripping, size qualification, type indexing, then the population of the
history attributes of lines 151-160. -/
def sv_init (r : VcfFields) (cfg : Cfg) : InitResult :=
  match pyInt r.pos with
  | none => InitResult.err
  | some b =>
    match make_info_dictionary (normInfo r.info) with
    | none => InitResult.err
    | some d =>
      match resolveType r.ref r.alt (normInfo r.info) d cfg.ignore_bnd cfg.ignore_inv with
      | TypeRes.rej => InitResult.notSV
      | TypeRes.ok alt4 s7 d1 =>
        match stripOld cfg.join_mode s7 d1 with
        | none => InitResult.err
        | some (old, s7f) =>
          match sizeQualify b d1 with
          | SizeRes.err => InitResult.err
          | SizeRes.rej => InitResult.notSV
          | SizeRes.acc e =>
            match typeIndex cfg.check_type d1 with
            | none => InitResult.err
            | some ty =>
              InitResult.ok
                { is_outputting_ids := cfg.output_ids
                  join_mode := cfg.join_mode
                  chromosome := r.chrom
                  begin_ := b
                  end_ := e
                  type := ty
                  min_begin := b
                  max_begin := b
                  begins := [b]
                  ends := [e]
                  infos := [s7f]
                  refs := [r.ref]
                  alts := [alt4]
                  unique_begins_and_ends := [(b, e)]
                  old_num_merged_svs := old
                  ids := if cfg.output_ids then [r.vid] else [] }

/-- SV.should_merge (sv.py lines 233-253): same-type check, the 10000
fast-reject window on the begin extremes, then a scan of the stored
unique begin/end pairs against the single representative position of the
other candidate. -/
def should_merge (s o : SVState) (max_sv_distance max_size_difference : Int) : Bool :=
  if o.type ≠ s.type then false
  else if |o.max_begin - s.min_begin| > 10000 ∨ |o.min_begin - s.max_begin| > 10000 then false
  else
    s.unique_begins_and_ends.any (fun p =>
      decide (|p.1 - o.begin_| ≤ max_sv_distance ∧ |p.2 - o.end_| ≤ max_sv_distance ∧
        |(o.end_ - o.begin_) - (p.2 - p.1)| ≤ max_size_difference))

/-- Python set union on the stored begin/end pairs: all elements of the
left set, then the elements of the right set not already present (only
membership is observable on a Python set). -/
def listUnion (s t : List (Int × Int)) : List (Int × Int) :=
  s ++ t.filter (fun p => decide (p ∉ s))

/-- SV.merge (sv.py lines 261-278): extends the begin window,
concatenates every history sequence self-then-other, unions the unique
pairs, accumulates old_num_merged_svs by other minus one when other
carries a positive count, and concatenates ids when id output is on. -/
def merge (s o : SVState) : SVState :=
  { s with
    min_begin := min s.min_begin o.min_begin
    max_begin := max s.max_begin o.max_begin
    begins := s.begins ++ o.begins
    ends := s.ends ++ o.ends
    infos := s.infos ++ o.infos
    refs := s.refs ++ o.refs
    alts := s.alts ++ o.alts
    unique_begins_and_ends := listUnion s.unique_begins_and_ends o.unique_begins_and_ends
    old_num_merged_svs :=
      if o.old_num_merged_svs > 0 then s.old_num_merged_svs + o.old_num_merged_svs - 1
      else s.old_num_merged_svs
    ids := if s.is_outputting_ids then s.ids ++ o.ids else s.ids }

/-- The count written as NUM_MERGED_SVS or NUM_JOINED_SVS by SV.__str__
(sv.py lines 173-176): the number of absorbed records, plus the old
merged count minus one when that count is positive. -/
def str_num_svs (s : SVState) : Int :=
  (s.begins.length : Int) +
    (if s.old_num_merged_svs > 0 then s.old_num_merged_svs - 1 else 0)

/-- Python max(iterable, key=key) over a non-empty list: the fold keeps
the earlier element on ties, exactly as Python max does. -/
def pyMaxBy {α : Type} (key : α → Nat) : List α → Option α
  | [] => none
  | x :: xs => some (xs.foldl (fun a y => if key a < key y then y else a) x)

/-- Python list.count: the number of elements equal to x. -/
def pyCount {α : Type} [DecidableEq α] (data : List α) (x : α) : Nat :=
  (data.filter (fun y => decide (y = x))).length

/-- get_most_common_item (utilities.py lines 99-104):
max(set(data), key=data.count).  The Python set is modelled as the
deduplicated list; its iteration order is arbitrary in Python, and only
the count-maximality of the result is relied upon. -/
def get_most_common_item {α : Type} [DecidableEq α] (data : List α) : Option α :=
  pyMaxBy (pyCount data) data.dedup

/-- Index of the first occurrence of a pair in a list, mirroring the
enumerate loop of SV.finalize. -/
def firstPairIdx (p : Int × Int) : List (Int × Int) → Option Nat
  | [] => none
  | q :: qs => if q = p then some 0 else (firstPairIdx p qs).map (fun n => n + 1)

/-- SV.finalize (sv.py lines 207-218): chooses the most common
begin/end pair as the new begin and end, and when its first occurrence
index i is positive repoints infos, refs and alts at position 0 to the
values at position i.  none models the ValueError of max on an empty
set. -/
def finalize (sv : SVState) : Option SVState :=
  match get_most_common_item (sv.begins.zip sv.ends) with
  | none => none
  | some p =>
    match firstPairIdx p (sv.begins.zip sv.ends) with
    | none => some { sv with begin_ := p.1, end_ := p.2 }
    | some i =>
      if 0 < i then
        some { sv with
               begin_ := p.1
               end_ := p.2
               infos := sv.infos.set 0 (sv.infos.getD i [])
               refs := sv.refs.set 0 (sv.refs.getD i [])
               alts := sv.alts.set 0 (sv.alts.getD i []) }
      else some { sv with begin_ := p.1, end_ := p.2 }

/-- calculate_overlap (utilities.py lines 1-24), with the float
arithmetic of the source carried out exactly in the rationals; none
models the assertion failures on an invalid interval. -/
def calculate_overlap (i1_begin i1_end i2_begin i2_end : Int) : Option ℚ :=
  if i1_begin ≤ i1_end ∧ i2_begin ≤ i2_end then
    let overlapping_bases : Int := max 0 (min i1_end i2_end - max i1_begin i2_begin)
    let larger_interval_size : Int := max 1 (max (i1_end - i1_begin) (i2_end - i2_begin))
    some ((100 * overlapping_bases : Int) / (larger_interval_size : ℚ))
  else none

/-- C9: for all integers b1 ≤ e1 and b2 ≤ e2, overlapPercentage equals
100 * max 0 (min e1 e2 - max b1 b2) / max 1 (max (e1 - b1) (e2 - b2)),
lies in the range 0 to 100, and is symmetric in the two intervals. -/
theorem calculate_overlap_spec (b1 e1 b2 e2 : Int) (h1 : b1 ≤ e1) (h2 : b2 ≤ e2) :
    ∃ q : ℚ, calculate_overlap b1 e1 b2 e2 = some q ∧
      q = ((100 * max 0 (min e1 e2 - max b1 b2) : Int) : ℚ) /
          ((max 1 (max (e1 - b1) (e2 - b2)) : Int) : ℚ) ∧
      0 ≤ q ∧ q ≤ 100 ∧
      calculate_overlap b1 e1 b2 e2 = calculate_overlap b2 e2 b1 e1 := by
  have hsym : calculate_overlap b1 e1 b2 e2 = calculate_overlap b2 e2 b1 e1 := by
    unfold calculate_overlap
    rw [if_pos ⟨h1, h2⟩, if_pos ⟨h2, h1⟩]
    rw [min_comm e1 e2, max_comm b1 b2, max_comm (e1 - b1) (e2 - b2)]
  refine ⟨_, ?_, rfl, ?_, ?_, hsym⟩
  · unfold calculate_overlap
    rw [if_pos ⟨h1, h2⟩]
  · apply div_nonneg
    · exact_mod_cast mul_nonneg (by norm_num) (le_max_left 0 _)
    · exact_mod_cast le_trans (by norm_num) (le_max_left 1 _)
  · have hden : (0 : ℚ) < ((max 1 (max (e1 - b1) (e2 - b2)) : Int) : ℚ) := by
      exact_mod_cast lt_of_lt_of_le Int.zero_lt_one (le_max_left 1 _)
    rw [div_le_iff₀ hden]
    have hcore : max 0 (min e1 e2 - max b1 b2) ≤ max 1 (max (e1 - b1) (e2 - b2)) := by
      apply max_le_max (by norm_num)
      exact le_trans (sub_le_sub (min_le_left e1 e2) (le_max_left b1 b2)) (le_max_left _ _)
    have : (100 * max 0 (min e1 e2 - max b1 b2) : Int) ≤
        100 * max 1 (max (e1 - b1) (e2 - b2)) := by
      exact mul_le_mul_of_nonneg_left hcore (by norm_num)
    calc ((100 * max 0 (min e1 e2 - max b1 b2) : Int) : ℚ)
        ≤ ((100 * max 1 (max (e1 - b1) (e2 - b2)) : Int) : ℚ) := by exact_mod_cast this
      _ = 100 * ((max 1 (max (e1 - b1) (e2 - b2)) : Int) : ℚ) := by push_cast; ring

/-- Witness for C9 at the spec example overlap(0,2,1,2) = 50. -/
theorem calculate_overlap_spec_witness :
    ∃ q : ℚ, calculate_overlap 0 2 1 2 = some q ∧
      q = ((100 * max 0 (min 2 2 - max 0 1) : Int) : ℚ) /
          ((max 1 (max (2 - 0) (2 - 1)) : Int) : ℚ) ∧
      0 ≤ q ∧ q ≤ 100 ∧
      calculate_overlap 0 2 1 2 = calculate_overlap 1 2 0 2 :=
  calculate_overlap_spec 0 2 1 2 (by norm_num) (by norm_num)

/-- C5: should_merge other maxDistance maxSizeDiff is true exactly when
the types are equal, both begin-extreme distances are within 10000, and
some stored begin/end pair of self is within maxDistance of the other
candidate's begin and end with a size difference within maxSizeDiff. -/
theorem should_merge_iff (s o : SVState) (maxD maxS : Int)
    (hD : 0 ≤ maxD) (hS : 0 ≤ maxS) :
    should_merge s o maxD maxS = true ↔
      (o.type = s.type ∧
       |o.max_begin - s.min_begin| ≤ 10000 ∧ |o.min_begin - s.max_begin| ≤ 10000 ∧
       ∃ p ∈ s.unique_begins_and_ends,
         |p.1 - o.begin_| ≤ maxD ∧ |p.2 - o.end_| ≤ maxD ∧
         |(o.end_ - o.begin_) - (p.2 - p.1)| ≤ maxS) := by
  clear hD hS
  unfold should_merge
  by_cases hty : o.type = s.type
  · rw [if_neg (fun h => h hty)]
    by_cases hfast : |o.max_begin - s.min_begin| > 10000 ∨ |o.min_begin - s.max_begin| > 10000
    · rw [if_pos hfast]
      simp only [Bool.false_eq_true, false_iff]
      rintro ⟨-, hA, hB, -⟩
      rcases hfast with h | h
      · exact absurd hA (not_le.mpr h)
      · exact absurd hB (not_le.mpr h)
    · rw [if_neg hfast]
      push_neg at hfast
      rw [List.any_eq_true]
      constructor
      · rintro ⟨p, hp, hcond⟩
        exact ⟨hty, hfast.1, hfast.2, p, hp, of_decide_eq_true hcond⟩
      · rintro ⟨-, -, -, p, hp, hcond⟩
        exact ⟨p, hp, decide_eq_true hcond⟩
  · rw [if_pos hty]
    simp only [Bool.false_eq_true, false_iff]
    rintro ⟨h, -⟩
    exact hty h

/-- Witness for C5: two same-type candidates at identical coordinates
merge, checked through the characterization. -/
theorem should_merge_iff_witness :
    (0 : Int) ≤ 100 ∧
    (should_merge
      { is_outputting_ids := false, join_mode := false, chromosome := ("1").data,
        begin_ := 1000, end_ := 1500, type := 2, min_begin := 1000, max_begin := 1000,
        begins := [1000], ends := [1500], infos := [[]], refs := [[]], alts := [[]],
        unique_begins_and_ends := [(1000, 1500)], old_num_merged_svs := -1, ids := [] }
      { is_outputting_ids := false, join_mode := false, chromosome := ("1").data,
        begin_ := 1000, end_ := 1500, type := 2, min_begin := 1000, max_begin := 1000,
        begins := [1000], ends := [1500], infos := [[]], refs := [[]], alts := [[]],
        unique_begins_and_ends := [(1000, 1500)], old_num_merged_svs := -1, ids := [] }
      100 100 = true ↔
      ((2 : Nat) = 2 ∧
       |(1000 : Int) - 1000| ≤ 10000 ∧ |(1000 : Int) - 1000| ≤ 10000 ∧
       ∃ p ∈ [((1000 : Int), (1500 : Int))],
         |p.1 - 1000| ≤ (100 : Int) ∧ |p.2 - 1500| ≤ (100 : Int) ∧
         |((1500 : Int) - 1000) - (p.2 - p.1)| ≤ (100 : Int))) :=
  ⟨by norm_num,
   should_merge_iff _ _ 100 100 (by norm_num) (by norm_num)⟩

/-- Extracts the constructed state from an ok result. -/
def initState? : InitResult → Option SVState
  | InitResult.ok sv => some sv
  | _ => none

/-- C7: merge concatenates every history sequence self-then-other,
takes min and max of the begin extremes, unions the unique interval
sets, and concatenates ids when id-tracking is enabled. -/
theorem merge_concatenates_history (a b : SVState) (h : a.type = b.type) :
    (merge a b).begins = a.begins ++ b.begins ∧
    (merge a b).ends = a.ends ++ b.ends ∧
    (merge a b).infos = a.infos ++ b.infos ∧
    (merge a b).refs = a.refs ++ b.refs ∧
    (merge a b).alts = a.alts ++ b.alts ∧
    (a.is_outputting_ids = true → (merge a b).ids = a.ids ++ b.ids) ∧
    (merge a b).min_begin = min a.min_begin b.min_begin ∧
    (merge a b).max_begin = max a.max_begin b.max_begin ∧
    (∀ p : Int × Int, p ∈ (merge a b).unique_begins_and_ends ↔
        p ∈ a.unique_begins_and_ends ∨ p ∈ b.unique_begins_and_ends) := by
  clear h
  refine ⟨rfl, rfl, rfl, rfl, rfl, ?_, rfl, rfl, ?_⟩
  · intro hid
    simp [merge, hid]
  · intro p
    simp only [merge, listUnion, List.mem_append, List.mem_filter, decide_eq_true_eq]
    constructor
    · rintro (hp | ⟨hp, -⟩)
      · exact Or.inl hp
      · exact Or.inr hp
    · rintro (hp | hp)
      · exact Or.inl hp
      · by_cases hmem : p ∈ a.unique_begins_and_ends
        · exact Or.inl hmem
        · exact Or.inr ⟨hp, hmem⟩

/-- An unmerged deletion candidate at begin 10, end 20, used to
instantiate the merge theorems. -/
def exA : SVState :=
  { is_outputting_ids := true, join_mode := false, chromosome := ("1").data,
    begin_ := 10, end_ := 20, type := 2, min_begin := 10, max_begin := 10,
    begins := [10], ends := [20], infos := [("IA").data], refs := [("RA").data],
    alts := [("AA").data], unique_begins_and_ends := [(10, 20)],
    old_num_merged_svs := -1, ids := [("a1").data] }

/-- An unmerged deletion candidate at begin 12, end 22, used to
instantiate the merge theorems. -/
def exB : SVState :=
  { is_outputting_ids := true, join_mode := false, chromosome := ("1").data,
    begin_ := 12, end_ := 22, type := 2, min_begin := 12, max_begin := 12,
    begins := [12], ends := [22], infos := [("IB").data], refs := [("RB").data],
    alts := [("AB").data], unique_begins_and_ends := [(12, 22)],
    old_num_merged_svs := -1, ids := [("b1").data] }

/-- Witness for C7 at the spec example: begins [10] and ends [20] merged
with begins [12] and ends [22]. -/
theorem merge_concatenates_history_witness :
    exA.type = exB.type ∧
    ((merge exA exB).begins = exA.begins ++ exB.begins ∧
     (merge exA exB).ends = exA.ends ++ exB.ends ∧
     (merge exA exB).infos = exA.infos ++ exB.infos ∧
     (merge exA exB).refs = exA.refs ++ exB.refs ∧
     (merge exA exB).alts = exA.alts ++ exB.alts ∧
     (exA.is_outputting_ids = true → (merge exA exB).ids = exA.ids ++ exB.ids) ∧
     (merge exA exB).min_begin = min exA.min_begin exB.min_begin ∧
     (merge exA exB).max_begin = max exA.max_begin exB.max_begin ∧
     (∀ p : Int × Int, p ∈ (merge exA exB).unique_begins_and_ends ↔
         p ∈ exA.unique_begins_and_ends ∨ p ∈ exB.unique_begins_and_ends)) :=
  ⟨rfl, merge_concatenates_history exA exB rfl⟩

/-- Default construction configuration: check_type on, everything else
off, as in sv.py lines 26-32. -/
def cfgDefault : Cfg :=
  { check_type := true, join_mode := false, output_ids := false,
    ignore_bnd := false, ignore_inv := false }

/-- A raw deletion record with no prior merged count. -/
def recRawDel : VcfFields :=
  { chrom := ("1").data, pos := ("100").data, vid := ("r1").data, ref := ("A").data,
    alt := ("<DEL>").data, qual := ("0").data, filt := (".").data,
    info := ("SVTYPE=DEL;END=200").data }

/-- A deletion record carrying the prior merged count
NUM_MERGED_SVS=3. -/
def recCarrierDel : VcfFields :=
  { chrom := ("1").data, pos := ("100").data, vid := ("r2").data, ref := ("A").data,
    alt := ("<DEL>").data, qual := ("0").data, filt := (".").data,
    info := ("SVTYPE=DEL;END=200;NUM_MERGED_SVS=3").data }

/-- Counterexample to C1: candidate a is raw (oldMergedCount -1) and
candidate b carries oldMergedCount 3.  Merging b into a leaves a with
oldMergedCount 1 and a serialized count of 2, not 4, and merging a into
b adds nothing to b's count (3, not 3 + 2); so the claimed behaviour
holds in one direction only. -/
theorem old_merged_count_direction_cex :
    ((initState? (sv_init recRawDel cfgDefault)).bind (fun a =>
      (initState? (sv_init recCarrierDel cfgDefault)).map (fun b =>
        (a.old_num_merged_svs, b.old_num_merged_svs,
         (merge a b).old_num_merged_svs, str_num_svs (merge a b),
         (merge b a).old_num_merged_svs, str_num_svs (merge b a))))) =
      some (-1, 3, 1, 2, 3, 4) := by decide

/-- C1 as amended: merging an argument with oldMergedCount = k > 0 into
any receiver adds k - 1 to the receiver's oldMergedCount, while an
argument with a non-positive count leaves the receiver's count
unchanged; consequently a candidate carrying prior merged count 3 that
absorbs one raw record serializes a count of 4 when the carrier is the
receiver, but a count of 2 when the raw record is the receiver. -/
theorem old_merged_count_accumulation (a b : SVState) (k : Int)
    (hk : b.old_num_merged_svs = k) :
    (0 < k → (merge a b).old_num_merged_svs = a.old_num_merged_svs + k - 1) ∧
    (k ≤ 0 → (merge a b).old_num_merged_svs = a.old_num_merged_svs) ∧
    (k = 3 → a.old_num_merged_svs = -1 → a.begins.length = 1 → b.begins.length = 1 →
      str_num_svs (merge b a) = 4 ∧ str_num_svs (merge a b) = 2) := by
  subst hk
  refine ⟨?_, ?_, ?_⟩
  · intro hpos
    simp only [merge]
    rw [if_pos hpos]
  · intro hnonpos
    simp only [merge]
    rw [if_neg (by omega)]
  · intro hk3 hraw hla hlb
    constructor
    · simp only [str_num_svs, merge, List.length_append, hla, hlb, hraw, hk3]
      norm_num
    · simp only [str_num_svs, merge, List.length_append, hla, hlb, hraw, hk3]
      norm_num

/-- Witness for C1 as amended, at the constructed raw and carrier
candidates. -/
theorem old_merged_count_accumulation_witness :
    ∃ a b : SVState,
      initState? (sv_init recRawDel cfgDefault) = some a ∧
      initState? (sv_init recCarrierDel cfgDefault) = some b ∧
      b.old_num_merged_svs = 3 ∧
      ((0 < (3 : Int) → (merge a b).old_num_merged_svs = a.old_num_merged_svs + 3 - 1) ∧
       ((3 : Int) ≤ 0 → (merge a b).old_num_merged_svs = a.old_num_merged_svs) ∧
       ((3 : Int) = 3 → a.old_num_merged_svs = -1 → a.begins.length = 1 →
         b.begins.length = 1 →
         str_num_svs (merge b a) = 4 ∧ str_num_svs (merge a b) = 2)) := by
  match ha : initState? (sv_init recRawDel cfgDefault),
        hb : initState? (sv_init recCarrierDel cfgDefault) with
  | some a, some b =>
    refine ⟨a, b, rfl, rfl, ?_, old_merged_count_accumulation a b 3 ?_⟩ <;>
      · have : b.old_num_merged_svs = 3 := by
          have hb3 : (initState? (sv_init recCarrierDel cfgDefault)).map
              (fun x => x.old_num_merged_svs) = some 3 := by decide
          rw [hb] at hb3
          simpa using hb3
        exact this
  | none, _ => exact absurd ha (by decide)
  | some _, none => exact absurd hb (by decide)

/-- The Python-max fold stays inside the scanned list. -/
theorem foldl_pymax_mem {α : Type} (key : α → Nat) :
    ∀ (xs : List α) (x : α),
      xs.foldl (fun a y => if key a < key y then y else a) x ∈ x :: xs := by
  intro xs
  induction xs with
  | nil => intro x; simp
  | cons y ys ih =>
    intro x
    have h := ih (if key x < key y then y else x)
    simp only [List.foldl_cons]
    rcases List.mem_cons.mp h with h1 | h1
    · by_cases hxy : key x < key y
      · rw [if_pos hxy] at h1 ⊢
        rw [h1]
        exact List.mem_cons_of_mem _ (List.mem_cons_self _ _)
      · rw [if_neg hxy] at h1 ⊢
        rw [h1]
        exact List.mem_cons_self _ _
    · exact List.mem_cons_of_mem _ (List.mem_cons_of_mem _ h1)

/-- The Python-max fold dominates every element it scanned. -/
theorem foldl_pymax_ge {α : Type} (key : α → Nat) :
    ∀ (xs : List α) (x z : α), z ∈ x :: xs →
      key z ≤ key (xs.foldl (fun a y => if key a < key y then y else a) x) := by
  intro xs
  induction xs with
  | nil =>
    intro x z hz
    simp only [List.mem_singleton] at hz
    simp [hz]
  | cons y ys ih =>
    intro x z hz
    simp only [List.foldl_cons]
    have hstep : key x ≤ key (if key x < key y then y else x) ∧
        key y ≤ key (if key x < key y then y else x) := by
      by_cases hxy : key x < key y
      · rw [if_pos hxy]; exact ⟨le_of_lt hxy, le_refl _⟩
      · rw [if_neg hxy]; exact ⟨le_refl _, le_of_not_lt hxy⟩
    rcases List.mem_cons.mp hz with h1 | h1
    · subst h1
      exact le_trans hstep.1 (ih _ _ (List.mem_cons_self _ _))
    · rcases List.mem_cons.mp h1 with h2 | h2
      · subst h2
        exact le_trans hstep.2 (ih _ _ (List.mem_cons_self _ _))
      · exact ih _ _ (List.mem_cons_of_mem _ h2)

/-- get_most_common_item returns, on a non-empty list, an element of the
list whose multiplicity is maximal. -/
theorem get_most_common_item_spec {α : Type} [DecidableEq α] (data : List α)
    (hne : data ≠ []) :
    ∃ p, get_most_common_item data = some p ∧ p ∈ data ∧
      ∀ q ∈ data, pyCount data q ≤ pyCount data p := by
  have hd : data.dedup ≠ [] := by
    intro h
    exact hne ((List.dedup_eq_nil data).mp h)
  match hdd : data.dedup with
  | [] => exact absurd hdd hd
  | x :: xs =>
    refine ⟨xs.foldl (fun a y => if pyCount data a < pyCount data y then y else a) x,
      ?_, ?_, ?_⟩
    · unfold get_most_common_item pyMaxBy
      rw [hdd]
    · have hmem : xs.foldl (fun a y =>
          if pyCount data a < pyCount data y then y else a) x ∈ x :: xs :=
        foldl_pymax_mem (pyCount data) xs x
      rw [← hdd] at hmem
      exact List.mem_dedup.mp hmem
    · intro q hq
      have hqd : q ∈ x :: xs := by
        rw [← hdd]
        exact List.mem_dedup.mpr hq
      exact foldl_pymax_ge (pyCount data) xs x q hqd

/-- firstPairIdx finds the lowest index of a member pair. -/
theorem firstPairIdx_spec (p : Int × Int) :
    ∀ l : List (Int × Int), p ∈ l →
      ∃ i, firstPairIdx p l = some i ∧ l.get? i = some p ∧
        ∀ j, j < i → l.get? j ≠ some p := by
  intro l
  induction l with
  | nil => intro h; exact absurd h (List.not_mem_nil p)
  | cons q qs ih =>
    intro hp
    by_cases hqp : q = p
    · refine ⟨0, ?_, ?_, ?_⟩
      · unfold firstPairIdx
        rw [if_pos hqp]
      · simp [hqp]
      · intro j hj
        exact absurd hj (Nat.not_lt_zero j)
    · have hpqs : p ∈ qs := by
        rcases List.mem_cons.mp hp with h | h
        · exact absurd h.symm hqp
        · exact h
      obtain ⟨i, hfind, hget, hlow⟩ := ih hpqs
      refine ⟨i + 1, ?_, ?_, ?_⟩
      · unfold firstPairIdx
        rw [if_neg hqp, hfind]
        rfl
      · simpa using hget
      · intro j hj
        match j with
        | 0 => simpa using fun h => hqp h
        | j' + 1 =>
          have : j' < i := by omega
          simpa using hlow j' this

/-- Writing back the head element read with a default is the identity on
a non-empty list. -/
theorem set_zero_getD_self {α : Type} (l : List α) (d : α) (h : l ≠ []) :
    l.set 0 (l.getD 0 d) = l := by
  cases l with
  | nil => exact absurd rfl h
  | cons a t => simp [List.getD]

/-- C8: on a candidate with non-empty parallel history, finalize picks a
begin/end pair of maximal multiplicity among the zipped pairs as the new
begin and end, and repoints infos, refs and alts at position 0 to the
values at the lowest index holding that pair, leaving all other
positions unchanged. -/
theorem finalize_most_common_repoint (sv : SVState)
    (hne : sv.begins ≠ [])
    (hlen : sv.ends.length = sv.begins.length)
    (hinfos : sv.infos.length = sv.begins.length)
    (hrefs : sv.refs.length = sv.begins.length)
    (halts : sv.alts.length = sv.begins.length) :
    ∃ p i,
      p ∈ sv.begins.zip sv.ends ∧
      (∀ q ∈ sv.begins.zip sv.ends,
        pyCount (sv.begins.zip sv.ends) q ≤ pyCount (sv.begins.zip sv.ends) p) ∧
      (sv.begins.zip sv.ends).get? i = some p ∧
      (∀ j, j < i → (sv.begins.zip sv.ends).get? j ≠ some p) ∧
      finalize sv = some { sv with
        begin_ := p.1
        end_ := p.2
        infos := sv.infos.set 0 (sv.infos.getD i [])
        refs := sv.refs.set 0 (sv.refs.getD i [])
        alts := sv.alts.set 0 (sv.alts.getD i []) } := by
  have hpairs_ne : sv.begins.zip sv.ends ≠ [] := by
    intro hnil
    have := congrArg List.length hnil
    rw [List.length_zip, hlen, min_self] at this
    exact hne (List.length_eq_zero.mp this)
  obtain ⟨p, hmost, hpmem, hmax⟩ := get_most_common_item_spec _ hpairs_ne
  obtain ⟨i, hfind, hget, hlow⟩ := firstPairIdx_spec p _ hpmem
  refine ⟨p, i, hpmem, hmax, hget, hlow, ?_⟩
  unfold finalize
  rw [hmost]
  dsimp only
  rw [hfind]
  dsimp only
  by_cases hi : 0 < i
  · rw [if_pos hi]
  · rw [if_neg hi]
    have hi0 : i = 0 := by omega
    subst hi0
    have hinf : sv.infos ≠ [] := by
      intro hnil
      rw [hnil] at hinfos
      exact hne (List.length_eq_zero.mp hinfos.symm)
    have href : sv.refs ≠ [] := by
      intro hnil
      rw [hnil] at hrefs
      exact hne (List.length_eq_zero.mp hrefs.symm)
    have halt : sv.alts ≠ [] := by
      intro hnil
      rw [hnil] at halts
      exact hne (List.length_eq_zero.mp halts.symm)
    rw [set_zero_getD_self sv.infos [] hinf, set_zero_getD_self sv.refs [] href,
      set_zero_getD_self sv.alts [] halt]

/-- A merged candidate whose absorbed position pairs are (10,20), (10,20)
and (12,22), used to instantiate the finalize theorem. -/
def exC : SVState :=
  { is_outputting_ids := false, join_mode := false, chromosome := ("1").data,
    begin_ := 10, end_ := 20, type := 2, min_begin := 10, max_begin := 12,
    begins := [10, 10, 12], ends := [20, 20, 22],
    infos := [("I0").data, ("I1").data, ("I2").data],
    refs := [("R0").data, ("R1").data, ("R2").data],
    alts := [("A0").data, ("A1").data, ("A2").data],
    unique_begins_and_ends := [(10, 20), (12, 22)],
    old_num_merged_svs := -1, ids := [] }

/-- Witness for C8 at the spec example pairs (10,20), (10,20), (12,22):
the theorem applies and the representative selected is (10,20). -/
theorem finalize_most_common_repoint_witness :
    (∃ p i,
      p ∈ exC.begins.zip exC.ends ∧
      (∀ q ∈ exC.begins.zip exC.ends,
        pyCount (exC.begins.zip exC.ends) q ≤ pyCount (exC.begins.zip exC.ends) p) ∧
      (exC.begins.zip exC.ends).get? i = some p ∧
      (∀ j, j < i → (exC.begins.zip exC.ends).get? j ≠ some p) ∧
      finalize exC = some { exC with
        begin_ := p.1
        end_ := p.2
        infos := exC.infos.set 0 (exC.infos.getD i [])
        refs := exC.refs.set 0 (exC.refs.getD i [])
        alts := exC.alts.set 0 (exC.alts.getD i []) }) ∧
    (finalize exC).map (fun s => (s.begin_, s.end_)) = some (10, 20) :=
  ⟨finalize_most_common_repoint exC (by decide) (by decide) (by decide) (by decide)
    (by decide), by decide⟩

/-- splitOnChar always yields at least one piece. -/
theorem splitOnChar_ne_nil (c : Char) : ∀ s : Str, splitOnChar c s ≠ [] := by
  intro s
  induction s with
  | nil => simp [splitOnChar]
  | cons x xs ih =>
    unfold splitOnChar
    match h : splitOnChar c xs with
    | [] => exact absurd h ih
    | hd :: tl =>
      by_cases hx : x = c
      · simp [hx]
      · simp [hx]

/-- A string free of the separator splits into itself alone. -/
theorem splitOnChar_not_mem (c : Char) : ∀ s : Str, c ∉ s → splitOnChar c s = [s] := by
  intro s
  induction s with
  | nil => intro h; rfl
  | cons x xs ih =>
    intro h
    have hx : x ≠ c := fun he => h (he ▸ List.mem_cons_self x xs)
    have hxs : c ∉ xs := fun hm => h (List.mem_cons_of_mem x hm)
    unfold splitOnChar
    rw [ih hxs]
    simp [hx]

/-- Splitting a ++ c :: b where a is free of the separator yields a
followed by the split of b. -/
theorem splitOnChar_append (c : Char) :
    ∀ a b : Str, c ∉ a → splitOnChar c (a ++ c :: b) = a :: splitOnChar c b := by
  intro a
  induction a with
  | nil =>
    intro b h
    obtain ⟨hd, tl, hb⟩ : ∃ hd tl, splitOnChar c b = hd :: tl := by
      match hbb : splitOnChar c b with
      | [] => exact absurd hbb (splitOnChar_ne_nil c b)
      | q :: qs => exact ⟨q, qs, rfl⟩
    show splitOnChar c (c :: b) = [] :: splitOnChar c b
    rw [hb]
    unfold splitOnChar
    rw [hb]
    simp
  | cons x xs ih =>
    intro b h
    have hx : x ≠ c := fun he => h (he ▸ List.mem_cons_self x xs)
    have hxs : c ∉ xs := fun hm => h (List.mem_cons_of_mem x hm)
    show splitOnChar c (x :: (xs ++ c :: b)) = (x :: xs) :: splitOnChar c b
    conv_lhs => unfold splitOnChar
    rw [ih b hxs]
    simp [hx]

/-- Counterexample to C2: the annotation token A=B=C contains two equals
signs, and the parser raises a ValueError on it (the unpacking
key, val = token.split fails on three pieces) instead of splitting on
the first equals sign; modelled by make_info_dictionary returning
none. -/
theorem info_parser_double_equals_cex :
    make_info_dictionary (("A=B=C").data) = none ∧
    sv_init { chrom := ("1").data, pos := ("100").data, vid := ("r3").data,
              ref := ("A").data, alt := ("<DEL>").data, qual := ("0").data,
              filt := (".").data, info := ("A=B=C").data } cfgDefault =
      InitResult.err := by
  constructor <;> decide

/-- C2 as amended: the field parser splits the annotation string on
semicolons; a token with exactly one equals sign maps the text before it
to the text after it, a token without an equals sign maps to the empty
value, a later occurrence of a key overwrites an earlier one, and a
token with two or more equals signs makes the parser raise instead of
splitting on the first equals sign. -/
theorem info_parser_tokens (k v v1 v2 a b c : Str)
    (hk_eq : '=' ∉ k) (hk_semi : ';' ∉ k)
    (hv_eq : '=' ∉ v) (hv_semi : ';' ∉ v)
    (hv1_eq : '=' ∉ v1) (hv1_semi : ';' ∉ v1)
    (hv2_eq : '=' ∉ v2) (hv2_semi : ';' ∉ v2)
    (ha_eq : '=' ∉ a) (ha_semi : ';' ∉ a)
    (hb_eq : '=' ∉ b) (hb_semi : ';' ∉ b)
    (hc_semi : ';' ∉ c) :
    make_info_dictionary (k ++ '=' :: v) = some [(k, v)] ∧
    make_info_dictionary k = some [(k, [])] ∧
    make_info_dictionary ((k ++ '=' :: v1) ++ ';' :: (k ++ '=' :: v2)) =
      some [(k, v2), (k, v1)] ∧
    dget [(k, v2), (k, v1)] k = some v2 ∧
    make_info_dictionary (a ++ '=' :: (b ++ '=' :: c)) = none := by
  have hsemi_ne_eq : (';' : Char) ≠ '=' := by decide
  have hpair : ∀ kk vv : Str, '=' ∉ kk → '=' ∉ vv →
      splitOnChar '=' (kk ++ '=' :: vv) = [kk, vv] := by
    intro kk vv hkk hvv
    rw [splitOnChar_append '=' kk vv hkk, splitOnChar_not_mem '=' vv hvv]
  have hpair_semi : ∀ kk vv : Str, ';' ∉ kk → ';' ∉ vv → ';' ∉ kk ++ '=' :: vv := by
    intro kk vv hkk hvv hmem
    rcases List.mem_append.mp hmem with h | h
    · exact hkk h
    · rcases List.mem_cons.mp h with h | h
      · exact hsemi_ne_eq h
      · exact hvv h
  refine ⟨?_, ?_, ?_, ?_, ?_⟩
  · unfold make_info_dictionary
    rw [splitOnChar_not_mem ';' _ (hpair_semi k v hk_semi hv_semi)]
    show addInfoToken [] (k ++ '=' :: v) >>= _ = _
    rw [addInfoToken, hpair k v hk_eq hv_eq]
    rfl
  · unfold make_info_dictionary
    rw [splitOnChar_not_mem ';' k hk_semi]
    show addInfoToken [] k >>= _ = _
    rw [addInfoToken, splitOnChar_not_mem '=' k hk_eq]
    rfl
  · unfold make_info_dictionary
    rw [splitOnChar_append ';' _ _ (hpair_semi k v1 hk_semi hv1_semi),
      splitOnChar_not_mem ';' _ (hpair_semi k v2 hk_semi hv2_semi)]
    show addInfoToken [] (k ++ '=' :: v1) >>= _ = _
    rw [addInfoToken, hpair k v1 hk_eq hv1_eq]
    show some (dset [] k v1) >>= _ = _
    show addInfoToken (dset [] k v1) (k ++ '=' :: v2) >>= _ = _
    rw [addInfoToken, hpair k v2 hk_eq hv2_eq]
    rfl
  · show (if k = k then some v2 else dget [(k, v1)] k) = some v2
    rw [if_pos rfl]
  · unfold make_info_dictionary
    have hsemi_all : ';' ∉ a ++ '=' :: (b ++ '=' :: c) := by
      intro hmem
      rcases List.mem_append.mp hmem with h | h
      · exact ha_semi h
      · rcases List.mem_cons.mp h with h | h
        · exact hsemi_ne_eq h
        · rcases List.mem_append.mp h with h | h
          · exact hb_semi h
          · rcases List.mem_cons.mp h with h | h
            · exact hsemi_ne_eq h
            · exact hc_semi h
    rw [splitOnChar_not_mem ';' _ hsemi_all]
    show addInfoToken [] (a ++ '=' :: (b ++ '=' :: c)) >>= _ = _
    rw [addInfoToken, splitOnChar_append '=' a (b ++ '=' :: c) ha_eq,
      splitOnChar_append '=' b c hb_eq]
    match hc : splitOnChar '=' c with
    | [] => exact absurd hc (splitOnChar_ne_nil '=' c)
    | hd :: tl => rfl

/-- Witness for C2 as amended at concrete tokens. -/
theorem info_parser_tokens_witness :
    make_info_dictionary (("SVTYPE").data ++ '=' :: ("DEL").data) =
      some [(("SVTYPE").data, ("DEL").data)] ∧
    make_info_dictionary (("SVTYPE").data) = some [(("SVTYPE").data, [])] ∧
    make_info_dictionary ((("SVTYPE").data ++ '=' :: ("1").data) ++
        ';' :: (("SVTYPE").data ++ '=' :: ("2").data)) =
      some [(("SVTYPE").data, ("2").data), (("SVTYPE").data, ("1").data)] ∧
    dget [(("SVTYPE").data, ("2").data), (("SVTYPE").data, ("1").data)]
      (("SVTYPE").data) = some (("2").data) ∧
    make_info_dictionary (("A").data ++ '=' :: (("B").data ++ '=' :: ("C").data)) =
      none :=
  info_parser_tokens (("SVTYPE").data) (("DEL").data) (("1").data) (("2").data)
    (("A").data) (("B").data) (("C").data)
    (by decide) (by decide) (by decide) (by decide) (by decide) (by decide)
    (by decide) (by decide) (by decide) (by decide) (by decide) (by decide)
    (by decide)

/-- With an explicit DEL type tag the type-resolution block neither
filters nor renames: it passes the alt column, info string and
dictionary through unchanged. -/
theorem resolveType_explicit_del (ref alt s7 : Str) (d : Dict) (ib iv : Bool)
    (htype : dget d (("SVTYPE").data) = some (("DEL").data)) :
    resolveType ref alt s7 d ib iv = TypeRes.ok alt s7 d := by
  unfold resolveType
  rw [htype]
  dsimp only
  rw [if_neg (by rintro (⟨-, h | h⟩ | ⟨-, h⟩) <;> exact absurd h (by decide))]
  rw [if_neg (by rintro (h | h) <;> exact absurd h (by decide))]
  rw [if_neg (by rintro (h | h | h | h | h | h | h) <;> exact absurd h (by decide))]
  rw [if_neg (by intro h; exact absurd h (by decide))]

/-- The old-value stripping step succeeds whenever a present
NUM_MERGED_SVS value parses as an integer (or join mode is on). -/
theorem stripOld_isSome (jm : Bool) (s7 : Str) (d : Dict)
    (hnum : jm = false → ∀ v, dget d (("NUM_MERGED_SVS").data) = some v →
      (pyInt v).isSome = true) :
    (stripOld jm s7 d).isSome = true := by
  unfold stripOld
  cases jm with
  | true =>
    rw [if_neg (by simp)]
    cases hstd : dget d (("STDDEV_POS").data) <;> simp [hstd]
  | false =>
    rw [if_pos rfl]
    cases hget : dget d (("NUM_MERGED_SVS").data) with
    | none =>
      cases hstd : dget d (("STDDEV_POS").data) <;> simp [hstd]
    | some v =>
      obtain ⟨n, hn⟩ := Option.isSome_iff_exists.mp (hnum rfl v hget)
      cases hstd : dget d (("STDDEV_POS").data) <;> simp [hn, hstd]

/-- A DEL-typed dictionary with no END, SVSIZE or SVLEN key leaves the
end position at begin, so the 50-base threshold always rejects. -/
theorem sizeQualify_del_nosize (b : Int) (d : Dict)
    (htype : dget d (("SVTYPE").data) = some (("DEL").data))
    (hend : dget d (("END").data) = none)
    (hsize : dget d (("SVSIZE").data) = none)
    (hlen : dget d (("SVLEN").data) = none) :
    sizeQualify b d = SizeRes.rej := by
  unfold sizeQualify
  rw [htype]
  dsimp only
  rw [if_pos rfl, hend]
  dsimp only
  rw [hsize]
  dsimp only
  rw [hlen]
  dsimp only
  rw [if_pos (by omega)]

/-- C10: a record with an explicit Deletion type tag whose annotation
has no END, SVSIZE or SVLEN key is always soft-rejected at
construction, in every configuration, because the end position stays at
begin and the 50-base threshold cannot be met.  The parse hypotheses
keep the exception channel (malformed numerals) out of scope. -/
theorem deletion_without_size_rejected (r : VcfFields) (cfg : Cfg) (b : Int) (d : Dict)
    (hpos : pyInt r.pos = some b)
    (hdict : make_info_dictionary (normInfo r.info) = some d)
    (htype : dget d (("SVTYPE").data) = some (("DEL").data))
    (hend : dget d (("END").data) = none)
    (hsize : dget d (("SVSIZE").data) = none)
    (hlen : dget d (("SVLEN").data) = none)
    (hnum : cfg.join_mode = false → ∀ v, dget d (("NUM_MERGED_SVS").data) = some v →
      (pyInt v).isSome = true) :
    sv_init r cfg = InitResult.notSV := by
  unfold sv_init
  rw [hpos]
  dsimp only
  rw [hdict]
  dsimp only
  rw [resolveType_explicit_del r.ref r.alt (normInfo r.info) d cfg.ignore_bnd
    cfg.ignore_inv htype]
  dsimp only
  obtain ⟨p, hstrip⟩ := Option.isSome_iff_exists.mp
    (stripOld_isSome cfg.join_mode (normInfo r.info) d hnum)
  obtain ⟨o, s7f⟩ := p
  rw [hstrip]
  dsimp only
  rw [sizeQualify_del_nosize b d htype hend hsize hlen]

/-- Witness for C10: an explicit DEL record whose annotation is just
SVTYPE=DEL is soft-rejected. -/
theorem deletion_without_size_rejected_witness :
    sv_init { chrom := ("1").data, pos := ("100").data, vid := ("r4").data,
              ref := ("A").data, alt := ("<DEL>").data, qual := ("0").data,
              filt := (".").data, info := ("SVTYPE=DEL").data } cfgDefault =
      InitResult.notSV :=
  deletion_without_size_rejected _ _ 100 [((("SVTYPE").data), (("DEL").data))]
    (by decide) (by decide) (by decide) (by decide) (by decide) (by decide)
    (by intro hjm v hv
        rw [(by decide : dget [((("SVTYPE").data), (("DEL").data))]
          (("NUM_MERGED_SVS").data) = none)] at hv
        exact Option.noConfusion hv)

/-- Lookup walks past a non-matching head binding. -/
theorem dget_cons_ne (k v q : Str) (d : Dict) (h : k ≠ q) :
    dget ((k, v) :: d) q = dget d q := by
  show (if k = q then some v else dget d q) = dget d q
  rw [if_neg h]

/-- Lookup stops at a matching head binding. -/
theorem dget_cons_eq (k v q : Str) (d : Dict) (h : k = q) :
    dget ((k, v) :: d) q = some v := by
  show (if k = q then some v else dget d q) = some v
  rw [if_pos h]

/-- Counterexample to C3: the record with reference column of length 52
and alternate column A,* has exactly one non-placeholder alternate
allele, of length 1, and 52 is at least 1 + 50, so the claim infers
Deletion; but the code compares the 52 characters of the reference with
the full 3-character alternate column plus 50 and soft-rejects the
record instead. -/
theorem infer_type_placeholder_allele_cex :
    (((splitOnChar ','
        (("A,*").data)).filter (fun x => x ≠ ("*").data)).length = 1 ∧
     ((splitOnChar ','
        (("A,*").data)).filter (fun x => x ≠ ("*").data)).headD [] = ("A").data ∧
     (("AAAAAAAAAAAAAAAAAAAAAAAAAAAAAAAAAAAAAAAAAAAAAAAAAAAA").data).length = 52 ∧
     make_info_dictionary (normInfo ((".").data)) = some [([], [])] ∧
     dget [([], [])] (("SVTYPE").data) = none) ∧
    sv_init { chrom := ("1").data, pos := ("100").data, vid := ("r5").data,
              ref := ("AAAAAAAAAAAAAAAAAAAAAAAAAAAAAAAAAAAAAAAAAAAAAAAAAAAA").data,
              alt := ("A,*").data, qual := ("0").data, filt := (".").data,
              info := (".").data } cfgDefault = InitResult.notSV := by
  constructor <;> decide

/-- C3 as amended: with no explicit type tag and exactly one
non-placeholder alternate allele, the type is inferred from the length
of the whole alternate-allele column string (which equals the allele's
length only when the column is that single allele): Deletion exactly
when refLen is at least altColLen + 50, recording SVLEN =
altColLen - refLen and SVSIZE = refLen - altColLen; Insertion exactly
when altColLen is at least refLen + 50, recording SVLEN =
altColLen - refLen; otherwise the record is soft-rejected. -/
theorem infer_type_by_field_lengths (r : VcfFields) (cfg : Cfg) (b : Int) (d : Dict)
    (hpos : pyInt r.pos = some b)
    (hdict : make_info_dictionary (normInfo r.info) = some d)
    (htype : dget d (("SVTYPE").data) = none)
    (halt : ((splitOnChar ',' r.alt).filter (fun x => x ≠ ("*").data)).length = 1) :
    (r.ref.length ≥ r.alt.length + 50 →
      ∃ s7 d1, resolveType r.ref r.alt (normInfo r.info) d
          cfg.ignore_bnd cfg.ignore_inv =
        TypeRes.ok
          (((splitOnChar ',' r.alt).filter (fun x => x ≠ ("*").data)).headD [])
          s7 d1 ∧
        dget d1 (("SVTYPE").data) = some (("DEL").data) ∧
        dget d1 (("SVLEN").data) =
          some (intToStr ((r.alt.length : Int) - (r.ref.length : Int))) ∧
        dget d1 (("SVSIZE").data) =
          some (intToStr ((r.ref.length : Int) - (r.alt.length : Int)))) ∧
    (r.alt.length ≥ r.ref.length + 50 →
      ∃ s7 d1, resolveType r.ref r.alt (normInfo r.info) d
          cfg.ignore_bnd cfg.ignore_inv =
        TypeRes.ok
          (((splitOnChar ',' r.alt).filter (fun x => x ≠ ("*").data)).headD [])
          s7 d1 ∧
        dget d1 (("SVTYPE").data) = some (("INS").data) ∧
        dget d1 (("SVLEN").data) =
          some (intToStr ((r.alt.length : Int) - (r.ref.length : Int)))) ∧
    (¬(r.ref.length ≥ r.alt.length + 50) → ¬(r.alt.length ≥ r.ref.length + 50) →
      resolveType r.ref r.alt (normInfo r.info) d
        cfg.ignore_bnd cfg.ignore_inv = TypeRes.rej ∧
      sv_init r cfg = InitResult.notSV) ∧
    (∀ a4 s7 d1, resolveType r.ref r.alt (normInfo r.info) d
        cfg.ignore_bnd cfg.ignore_inv = TypeRes.ok a4 s7 d1 →
      dget d1 (("SVTYPE").data) = some (("DEL").data) →
      r.ref.length ≥ r.alt.length + 50) ∧
    (∀ a4 s7 d1, resolveType r.ref r.alt (normInfo r.info) d
        cfg.ignore_bnd cfg.ignore_inv = TypeRes.ok a4 s7 d1 →
      dget d1 (("SVTYPE").data) = some (("INS").data) →
      r.alt.length ≥ r.ref.length + 50) := by
  have hDEL : r.ref.length ≥ r.alt.length + 50 →
      resolveType r.ref r.alt (normInfo r.info) d cfg.ignore_bnd cfg.ignore_inv =
        TypeRes.ok
          (((splitOnChar ',' r.alt).filter (fun x => x ≠ ("*").data)).headD [])
          ((if (normInfo r.info).length > 0 then normInfo r.info ++ (";").data
            else normInfo r.info) ++ ("SVTYPE=DEL;SVLEN=").data ++
            intToStr ((r.alt.length : Int) - (r.ref.length : Int)))
          ((("SVLEN").data, intToStr ((r.alt.length : Int) - (r.ref.length : Int))) ::
           (("SVSIZE").data, intToStr ((r.ref.length : Int) - (r.alt.length : Int))) ::
           (("SVTYPE").data, ("DEL").data) :: d) := by
    intro hA
    unfold resolveType
    rw [htype]
    dsimp only
    rw [if_pos halt, if_pos hA]
    dsimp only [dset]
    rw [dget_cons_ne _ _ _ _ (by decide), dget_cons_ne _ _ _ _ (by decide),
      dget_cons_eq _ _ _ _ rfl]
    rfl
  have hINS : ¬(r.ref.length ≥ r.alt.length + 50) → r.alt.length ≥ r.ref.length + 50 →
      resolveType r.ref r.alt (normInfo r.info) d cfg.ignore_bnd cfg.ignore_inv =
        TypeRes.ok
          (((splitOnChar ',' r.alt).filter (fun x => x ≠ ("*").data)).headD [])
          ((if (normInfo r.info).length > 0 then normInfo r.info ++ (";").data
            else normInfo r.info) ++ ("SVTYPE=INS;SVLEN=").data ++
            intToStr ((r.alt.length : Int) - (r.ref.length : Int)))
          ((("SVLEN").data, intToStr ((r.alt.length : Int) - (r.ref.length : Int))) ::
           (("SVSIZE").data, intToStr ((r.alt.length : Int) - (r.ref.length : Int))) ::
           (("SVTYPE").data, ("INS").data) :: d) := by
    intro hnA hB
    unfold resolveType
    rw [htype]
    dsimp only
    rw [if_pos halt, if_neg hnA, if_pos hB]
    dsimp only [dset]
    rw [dget_cons_ne _ _ _ _ (by decide), dget_cons_ne _ _ _ _ (by decide),
      dget_cons_eq _ _ _ _ rfl]
    rfl
  have hREJ : ¬(r.ref.length ≥ r.alt.length + 50) →
      ¬(r.alt.length ≥ r.ref.length + 50) →
      resolveType r.ref r.alt (normInfo r.info) d cfg.ignore_bnd cfg.ignore_inv =
        TypeRes.rej := by
    intro hnA hnB
    unfold resolveType
    rw [htype]
    dsimp only
    rw [if_pos halt, if_neg hnA, if_neg hnB]
  refine ⟨?_, ?_, ?_, ?_, ?_⟩
  · intro hA
    refine ⟨_, _, hDEL hA, ?_, ?_, ?_⟩
    · rw [dget_cons_ne _ _ _ _ (by decide), dget_cons_ne _ _ _ _ (by decide),
        dget_cons_eq _ _ _ _ rfl]
    · rw [dget_cons_eq _ _ _ _ rfl]
    · rw [dget_cons_ne _ _ _ _ (by decide), dget_cons_eq _ _ _ _ rfl]
  · intro hB
    have hnA : ¬(r.ref.length ≥ r.alt.length + 50) := by omega
    refine ⟨_, _, hINS hnA hB, ?_, ?_⟩
    · rw [dget_cons_ne _ _ _ _ (by decide), dget_cons_ne _ _ _ _ (by decide),
        dget_cons_eq _ _ _ _ rfl]
    · rw [dget_cons_eq _ _ _ _ rfl]
  · intro hnA hnB
    refine ⟨hREJ hnA hnB, ?_⟩
    unfold sv_init
    rw [hpos]
    dsimp only
    rw [hdict]
    dsimp only
    rw [hREJ hnA hnB]
  · intro a4 s7 d1 hok hdel
    by_cases hA : r.ref.length ≥ r.alt.length + 50
    · exact hA
    by_cases hB : r.alt.length ≥ r.ref.length + 50
    · exfalso
      rw [hINS hA hB] at hok
      injection hok with h1 h2 h3
      subst h3
      rw [dget_cons_ne _ _ _ _ (by decide), dget_cons_ne _ _ _ _ (by decide),
        dget_cons_eq _ _ _ _ rfl] at hdel
      exact absurd (Option.some.inj hdel) (by decide)
    · exfalso
      rw [hREJ hA hB] at hok
      exact TypeRes.noConfusion hok
  · intro a4 s7 d1 hok hins
    by_cases hB : r.alt.length ≥ r.ref.length + 50
    · exact hB
    by_cases hA : r.ref.length ≥ r.alt.length + 50
    · exfalso
      rw [hDEL hA] at hok
      injection hok with h1 h2 h3
      subst h3
      rw [dget_cons_ne _ _ _ _ (by decide), dget_cons_ne _ _ _ _ (by decide),
        dget_cons_eq _ _ _ _ rfl] at hins
      exact absurd (Option.some.inj hins) (by decide)
    · exfalso
      rw [hREJ hA hB] at hok
      exact TypeRes.noConfusion hok

/-- The spec's example record: reference column of length 60, alternate
column the single allele A, no annotation. -/
def recInferDel : VcfFields :=
  { chrom := ("1").data, pos := ("100").data, vid := ("r6").data,
    ref := ("AAAAAAAAAAAAAAAAAAAAAAAAAAAAAAAAAAAAAAAAAAAAAAAAAAAAAAAAAAAA").data,
    alt := ("A").data, qual := ("0").data, filt := (".").data,
    info := (".").data }

/-- Witness for C3 as amended: the untagged record with reference
length 60 and alternate length 1 infers Deletion with the signed length
and size recorded. -/
theorem infer_type_by_field_lengths_witness :
    ∃ s7 d1, resolveType recInferDel.ref recInferDel.alt (normInfo recInferDel.info)
        [([], [])] cfgDefault.ignore_bnd cfgDefault.ignore_inv =
      TypeRes.ok
        (((splitOnChar ',' recInferDel.alt).filter
          (fun x => x ≠ ("*").data)).headD [])
        s7 d1 ∧
      dget d1 (("SVTYPE").data) = some (("DEL").data) ∧
      dget d1 (("SVLEN").data) =
        some (intToStr ((recInferDel.alt.length : Int) -
          (recInferDel.ref.length : Int))) ∧
      dget d1 (("SVSIZE").data) =
        some (intToStr ((recInferDel.ref.length : Int) -
          (recInferDel.alt.length : Int))) :=
  (infer_type_by_field_lengths recInferDel cfgDefault 100 [([], [])]
    (by decide) (by decide) (by decide) (by decide)).1 (by decide)

/-- The insertion record whose SVLEN is the literal -1 while SVSIZE
is 60. -/
def recInsSentinel : VcfFields :=
  { chrom := ("1").data, pos := ("100").data, vid := ("r7").data,
    ref := ("A").data, alt := ("<INS>").data, qual := ("0").data,
    filt := (".").data, info := ("SVTYPE=INS;SVLEN=-1;SVSIZE=60").data }

/-- Counterexample to C6: the insertion record carries the explicit
length field SVLEN=-1, which is below 50, and none of the three
inserted-sequence-evidence keys, so the claim soft-rejects it; but the
code treats the parsed value -1 as absence and falls back to
SVSIZE=60, accepting the record (with end = begin). -/
theorem insertion_sentinel_fallback_cex :
    (make_info_dictionary (normInfo recInsSentinel.info) =
       some [((("SVSIZE").data), (("60").data)),
             ((("SVLEN").data), (("-1").data)),
             ((("SVTYPE").data), (("INS").data))] ∧
     pyInt (("-1").data) = some (-1) ∧ ((-1 : Int) < 50) ∧
     dget [((("SVSIZE").data), (("60").data)),
           ((("SVLEN").data), (("-1").data)),
           ((("SVTYPE").data), (("INS").data))] (("SVINSSEQ").data) = none ∧
     dget [((("SVSIZE").data), (("60").data)),
           ((("SVLEN").data), (("-1").data)),
           ((("SVTYPE").data), (("INS").data))] (("LEFT_SVINSSEQ").data) = none ∧
     dget [((("SVSIZE").data), (("60").data)),
           ((("SVLEN").data), (("-1").data)),
           ((("SVTYPE").data), (("INS").data))] (("RIGHT_SVINSSEQ").data) = none) ∧
    (initState? (sv_init recInsSentinel cfgDefault)).map
      (fun sv => (sv.begin_, sv.end_, sv.type)) = some (100, 100, 3) := by
  constructor <;> decide

/-- C6 as amended: for a Deletion the end position is the parsed END
value when present, else begin plus the absolute parsed SVSIZE, else
begin plus the absolute parsed SVLEN, else begin, and the record is
soft-rejected exactly when end - begin < 50; for an Insertion the
length is the parsed SVLEN unless that key is absent or its value
equals the sentinel -1, in which case it is the parsed SVSIZE,
defaulting to -1, and the record is soft-rejected exactly when the
length is below 50 and none of the three inserted-sequence keys is
present; accepted insertions keep end = begin. -/
theorem size_qualification (b : Int) (d : Dict) :
    (dget d (("SVTYPE").data) = some (("DEL").data) →
      (∀ v e, dget d (("END").data) = some v → pyInt v = some e →
        sizeQualify b d = if e - b < 50 then SizeRes.rej else SizeRes.acc e) ∧
      (dget d (("END").data) = none →
        (∀ v sval, dget d (("SVSIZE").data) = some v → pyInt v = some sval →
          sizeQualify b d = if b + (sval.natAbs : Int) - b < 50 then SizeRes.rej
            else SizeRes.acc (b + (sval.natAbs : Int))) ∧
        (dget d (("SVSIZE").data) = none →
          (∀ v sval, dget d (("SVLEN").data) = some v → pyInt v = some sval →
            sizeQualify b d = if b + (sval.natAbs : Int) - b < 50 then SizeRes.rej
              else SizeRes.acc (b + (sval.natAbs : Int))) ∧
          (dget d (("SVLEN").data) = none → sizeQualify b d = SizeRes.rej)))) ∧
    (dget d (("SVTYPE").data) = some (("INS").data) →
      (∀ v n, dget d (("SVLEN").data) = some v → pyInt v = some n → n ≠ -1 →
        sizeQualify b d =
          if n < 50 ∧ dget d (("SVINSSEQ").data) = none ∧
              dget d (("LEFT_SVINSSEQ").data) = none ∧
              dget d (("RIGHT_SVINSSEQ").data) = none then
            SizeRes.rej
          else SizeRes.acc b) ∧
      (∀ w m, dget d (("SVSIZE").data) = some w → pyInt w = some m →
        (dget d (("SVLEN").data) = none ∨
          (∃ v, dget d (("SVLEN").data) = some v ∧ pyInt v = some (-1))) →
        sizeQualify b d =
          if m < 50 ∧ dget d (("SVINSSEQ").data) = none ∧
              dget d (("LEFT_SVINSSEQ").data) = none ∧
              dget d (("RIGHT_SVINSSEQ").data) = none then
            SizeRes.rej
          else SizeRes.acc b) ∧
      (dget d (("SVSIZE").data) = none →
        (dget d (("SVLEN").data) = none ∨
          (∃ v, dget d (("SVLEN").data) = some v ∧ pyInt v = some (-1))) →
        sizeQualify b d =
          if dget d (("SVINSSEQ").data) = none ∧
              dget d (("LEFT_SVINSSEQ").data) = none ∧
              dget d (("RIGHT_SVINSSEQ").data) = none then
            SizeRes.rej
          else SizeRes.acc b)) ∧
    (∀ (r : VcfFields) (cfg : Cfg) (b0 : Int) (d0 : Dict) a4 s7 d1,
      pyInt r.pos = some b0 →
      make_info_dictionary (normInfo r.info) = some d0 →
      resolveType r.ref r.alt (normInfo r.info) d0 cfg.ignore_bnd cfg.ignore_inv =
        TypeRes.ok a4 s7 d1 →
      (stripOld cfg.join_mode s7 d1).isSome = true →
      (sizeQualify b0 d1 = SizeRes.rej → sv_init r cfg = InitResult.notSV) ∧
      (∀ e ty, sizeQualify b0 d1 = SizeRes.acc e →
        typeIndex cfg.check_type d1 = some ty →
        ∃ sv, sv_init r cfg = InitResult.ok sv ∧ sv.begin_ = b0 ∧ sv.end_ = e)) := by
  have hseq : ∀ n : Int,
      (n < 50 ∧ (dget d (("SVINSSEQ").data)).isNone = true ∧
        (dget d (("LEFT_SVINSSEQ").data)).isNone = true ∧
        (dget d (("RIGHT_SVINSSEQ").data)).isNone = true) ↔
      (n < 50 ∧ dget d (("SVINSSEQ").data) = none ∧
        dget d (("LEFT_SVINSSEQ").data) = none ∧
        dget d (("RIGHT_SVINSSEQ").data) = none) := by
    intro n
    simp [Option.isNone_iff_eq_none]
  refine ⟨?_, ?_, ?_⟩
  · intro hdel
    refine ⟨?_, ?_⟩
    · intro v e hv he
      unfold sizeQualify
      rw [hdel]
      dsimp only
      rw [if_pos rfl, hv]
      dsimp only
      rw [he]
      dsimp only
      exact if_congr (by omega) rfl rfl
    · intro hend
      refine ⟨?_, ?_⟩
      · intro v sval hv hs
        unfold sizeQualify
        rw [hdel]
        dsimp only
        rw [if_pos rfl, hend]
        dsimp only
        rw [hv]
        dsimp only
        rw [hs]
        dsimp only [Option.map]
        exact if_congr (by omega) rfl rfl
      · intro hsize
        refine ⟨?_, ?_⟩
        · intro v sval hv hs
          unfold sizeQualify
          rw [hdel]
          dsimp only
          rw [if_pos rfl, hend]
          dsimp only
          rw [hsize]
          dsimp only
          rw [hv]
          dsimp only
          rw [hs]
          dsimp only [Option.map]
          exact if_congr (by omega) rfl rfl
        · intro hlen
          exact sizeQualify_del_nosize b d hdel hend hsize hlen
  · intro hins
    refine ⟨?_, ?_, ?_⟩
    · intro v n hv hn hne
      unfold sizeQualify
      rw [hins]
      dsimp only
      rw [if_neg (by intro h; exact absurd h (by decide)), if_pos rfl, hv]
      dsimp only
      rw [hn]
      dsimp only
      rw [if_neg hne]
      dsimp only
      exact if_congr (hseq n) rfl rfl
    · intro w m hw hm hlen
      unfold sizeQualify
      rw [hins]
      dsimp only
      rw [if_neg (by intro h; exact absurd h (by decide)), if_pos rfl]
      rcases hlen with hlen | ⟨v, hv, hvm⟩
      · rw [hlen]
        dsimp only
        rw [if_pos rfl, hw]
        dsimp only
        rw [hm]
        dsimp only
        exact if_congr (hseq m) rfl rfl
      · rw [hv]
        dsimp only
        rw [hvm]
        dsimp only
        rw [if_pos rfl, hw]
        dsimp only
        rw [hm]
        dsimp only
        exact if_congr (hseq m) rfl rfl
    · intro hsize hlen
      have hm1 : ((-1 : Int) < 50) := by norm_num
      unfold sizeQualify
      rw [hins]
      dsimp only
      rw [if_neg (by intro h; exact absurd h (by decide)), if_pos rfl]
      rcases hlen with hlen | ⟨v, hv, hvm⟩
      · rw [hlen]
        dsimp only
        rw [if_pos rfl, hsize]
        dsimp only
        exact if_congr (by rw [hseq]; simp [hm1]) rfl rfl
      · rw [hv]
        dsimp only
        rw [hvm]
        dsimp only
        rw [if_pos rfl, hsize]
        dsimp only
        exact if_congr (by rw [hseq]; simp [hm1]) rfl rfl
  · intro r cfg b0 d0 a4 s7 d1 hpos hdict hres hstrip
    constructor
    · intro hrej
      unfold sv_init
      rw [hpos]
      dsimp only
      rw [hdict]
      dsimp only
      rw [hres]
      dsimp only
      obtain ⟨p, hp⟩ := Option.isSome_iff_exists.mp hstrip
      obtain ⟨o, s7f⟩ := p
      rw [hp]
      dsimp only
      rw [hrej]
    · intro e ty hacc hty
      unfold sv_init
      rw [hpos]
      dsimp only
      rw [hdict]
      dsimp only
      rw [hres]
      dsimp only
      obtain ⟨p, hp⟩ := Option.isSome_iff_exists.mp hstrip
      obtain ⟨o, s7f⟩ := p
      rw [hp]
      dsimp only
      rw [hacc]
      dsimp only
      rw [hty]
      dsimp only
      exact ⟨_, rfl, rfl, rfl⟩

/-- Witness for C6 as amended: a DEL dictionary with END=200 at begin
100 passes the threshold with end 200. -/
theorem size_qualification_witness :
    sizeQualify 100 [((("END").data), (("200").data)),
                     ((("SVTYPE").data), (("DEL").data))] =
      if (200 : Int) - 100 < 50 then SizeRes.rej else SizeRes.acc 200 :=
  ((size_qualification 100 [((("END").data), (("200").data)),
      ((("SVTYPE").data), (("DEL").data))]).1 (by decide)).1
    (("200").data) 200 (by decide) (by decide)

/-- The default configuration with a chosen join-mode flag. -/
def cfgWithJoin (jb : Bool) : Cfg :=
  { check_type := true, join_mode := jb, output_ids := false,
    ignore_bnd := false, ignore_inv := false }

/-- A record whose annotation starts with the NUM_MERGED_SVS token. -/
def recNumFirst : VcfFields :=
  { chrom := ("1").data, pos := ("100").data, vid := ("r8").data,
    ref := ("A").data, alt := ("<DEL>").data, qual := ("0").data,
    filt := (".").data, info := ("NUM_MERGED_SVS=3;SVTYPE=DEL;END=200").data }

/-- A record whose annotation ends with the NUM_MERGED_SVS token,
leaving it without a trailing semicolon. -/
def recNumLast : VcfFields :=
  { chrom := ("1").data, pos := ("100").data, vid := ("r9").data,
    ref := ("A").data, alt := ("<DEL>").data, qual := ("0").data,
    filt := (".").data, info := ("SVTYPE=DEL;END=200;NUM_MERGED_SVS=3").data }

/-- A record whose annotation starts with the STDDEV_POS token. -/
def recStdFirst : VcfFields :=
  { chrom := ("1").data, pos := ("100").data, vid := ("r10").data,
    ref := ("A").data, alt := ("<DEL>").data, qual := ("0").data,
    filt := (".").data, info := ("STDDEV_POS=1.50,2.50;SVTYPE=DEL;END=200").data }

/-- Counterexample to C4: with join mode on, the NUM_MERGED_SVS token is
not stripped from the carried-forward annotation at all, and even with
join mode off a final NUM_MERGED_SVS token is kept because the removed
pattern carries a trailing semicolon the final token does not have. -/
theorem strip_keys_join_mode_cex :
    (initState? (sv_init recNumFirst (cfgWithJoin true))).map
      (fun sv => sv.infos.headD []) =
      some (("NUM_MERGED_SVS=3;SVTYPE=DEL;END=200").data) ∧
    (initState? (sv_init recNumLast (cfgWithJoin false))).map
      (fun sv => sv.infos.headD []) =
      some (("SVTYPE=DEL;END=200;NUM_MERGED_SVS=3").data) := by
  constructor <;> decide

/-- C4 as amended: the constructor removes the literal substring
NUM_MERGED_SVS=value; from the carried-forward annotation only when
join mode is off (recording the parsed value), and removes the literal
substring STDDEV_POS=value; in either join mode; each removal is a
plain substring replacement whose pattern includes a trailing
semicolon, so a token in final position (with no semicolon after it)
is kept, and in join mode the NUM_MERGED_SVS token is always kept. -/
theorem strip_keys_conditional (jm : Bool) (s7 : Str) (d : Dict) :
    (jm = true → dget d (("STDDEV_POS").data) = none →
      stripOld jm s7 d = some (-1, s7)) ∧
    (jm = true → ∀ w, dget d (("STDDEV_POS").data) = some w →
      stripOld jm s7 d =
        some (-1, pyReplace s7 ((("STDDEV_POS=").data) ++ w ++ ((";").data)) [])) ∧
    (jm = false → dget d (("NUM_MERGED_SVS").data) = none →
      dget d (("STDDEV_POS").data) = none →
      stripOld jm s7 d = some (-1, s7)) ∧
    (jm = false → ∀ v n, dget d (("NUM_MERGED_SVS").data) = some v →
      pyInt v = some n → dget d (("STDDEV_POS").data) = none →
      stripOld jm s7 d =
        some (n, pyReplace s7 ((("NUM_MERGED_SVS=").data) ++ v ++ ((";").data)) [])) ∧
    (jm = false → ∀ v n w, dget d (("NUM_MERGED_SVS").data) = some v →
      pyInt v = some n → dget d (("STDDEV_POS").data) = some w →
      stripOld jm s7 d =
        some (n, pyReplace
          (pyReplace s7 ((("NUM_MERGED_SVS=").data) ++ v ++ ((";").data)) [])
          ((("STDDEV_POS=").data) ++ w ++ ((";").data)) [])) ∧
    (∀ jb : Bool,
      (initState? (sv_init recNumFirst (cfgWithJoin jb))).map
        (fun sv => sv.infos.headD []) =
        some (if jb then ("NUM_MERGED_SVS=3;SVTYPE=DEL;END=200").data
              else ("SVTYPE=DEL;END=200").data) ∧
      (initState? (sv_init recNumLast (cfgWithJoin jb))).map
        (fun sv => sv.infos.headD []) =
        some (("SVTYPE=DEL;END=200;NUM_MERGED_SVS=3").data) ∧
      (initState? (sv_init recStdFirst (cfgWithJoin jb))).map
        (fun sv => sv.infos.headD []) =
        some (("SVTYPE=DEL;END=200").data)) := by
  refine ⟨?_, ?_, ?_, ?_, ?_, ?_⟩
  · intro hjm hstd
    subst hjm
    unfold stripOld
    rw [if_neg (by simp)]
    simp [hstd]
  · intro hjm w hstd
    subst hjm
    unfold stripOld
    rw [if_neg (by simp)]
    simp [hstd]
  · intro hjm hnum hstd
    subst hjm
    unfold stripOld
    rw [if_pos rfl, hnum]
    simp [hstd]
  · intro hjm v n hnum hn hstd
    subst hjm
    unfold stripOld
    rw [if_pos rfl, hnum]
    dsimp only
    rw [hn]
    simp [hstd]
  · intro hjm v n w hnum hn hstd
    subst hjm
    unfold stripOld
    rw [if_pos rfl, hnum]
    dsimp only
    rw [hn]
    simp [hstd]
  · intro jb
    cases jb
    · exact ⟨by decide, by decide, by decide⟩
    · exact ⟨by decide, by decide, by decide⟩

/-- Witness for C4 as amended: with join mode off, the leading
NUM_MERGED_SVS=3; token of the annotation is removed by substring
replacement and the value 3 is recorded. -/
theorem strip_keys_conditional_witness :
    stripOld false (("NUM_MERGED_SVS=3;SVTYPE=DEL;END=200").data)
      [((("END").data), (("200").data)),
       ((("SVTYPE").data), (("DEL").data)),
       ((("NUM_MERGED_SVS").data), (("3").data))] =
      some (3, pyReplace (("NUM_MERGED_SVS=3;SVTYPE=DEL;END=200").data)
        ((("NUM_MERGED_SVS=").data) ++ (("3").data) ++ ((";").data)) []) :=
  ((strip_keys_conditional false (("NUM_MERGED_SVS=3;SVTYPE=DEL;END=200").data)
      [((("END").data), (("200").data)),
       ((("SVTYPE").data), (("DEL").data)),
       ((("NUM_MERGED_SVS").data), (("3").data))]).2.2.2.1) rfl
    (("3").data) 3 (by decide) (by decide) (by decide)
